import Mathlib

/-!
Verification of the SecureBank fraud-detection backend (`backend/main.py`).

The service is shallowly embedded: the pandas `groupby` aggregations become
explicit list aggregations over dataset rows, the pydantic request validation
becomes an `Except`-valued `validate` function, the FastAPI `predict` route
becomes `handlePredict` over an explicit `ServerState`, Python's `round`
(round-half-to-even) becomes `pyRound` on rationals, and the `haversine`
helper is embedded over the reals with `math.atan2` modelled piecewise.
Machine floats are modelled as exact rationals except inside `haversine`,
whose transcendental functions live in `ℝ`.
-/

namespace FraudAPI

/-- One row of the reference dataset (`fraudTest.csv`), restricted to the
eleven columns read at startup (`cols_needed` in `startup()`); numeric
columns are modelled as exact rationals. -/
structure Row where
  merchant : String
  category : String
  city : String
  state : String
  zip : ℚ
  lat : ℚ
  long : ℚ
  city_pop : ℚ
  merch_lat : ℚ
  merch_long : ℚ
deriving Repr, DecidableEq

/-- An entry of the city lookup table: `city -> {lat, long, state, zip, city_pop}`
as built by `df.groupby("city").agg({lat: mean, long: mean, state: first,
zip: first, city_pop: first})`. -/
structure CityInfo where
  lat : ℚ
  long : ℚ
  state : String
  zip : ℚ
  city_pop : ℚ
deriving Repr, DecidableEq

/-- An entry of the merchant lookup table: `merchant -> {merch_lat, merch_long}`
as built by `df.groupby("merchant").agg({merch_lat: mean, merch_long: mean})`. -/
structure MerchInfo where
  merch_lat : ℚ
  merch_long : ℚ
deriving Repr, DecidableEq

/-- Arithmetic mean of a list of rationals (`"mean"` aggregation of pandas). -/
def ratMean (xs : List ℚ) : ℚ := xs.sum / xs.length

/-- The city lookup table built at startup: group the dataset rows by city,
take the mean of `lat` and `long` and the first-observed (stored row order)
`state`, `zip` and `city_pop`.  A city absent from the dataset has no entry. -/
def buildCityLookup (ds : List Row) (c : String) : Option CityInfo :=
  match ds.filter (fun r => r.city = c) with
  | [] => none
  | r :: rs =>
      some { lat := ratMean ((r :: rs).map Row.lat)
             long := ratMean ((r :: rs).map Row.long)
             state := r.state
             zip := r.zip
             city_pop := r.city_pop }

/-- The merchant lookup table built at startup: group the dataset rows by
merchant and take the mean of `merch_lat` and `merch_long`. -/
def buildMerchantLookup (ds : List Row) (m : String) : Option MerchInfo :=
  match ds.filter (fun r => r.merchant = m) with
  | [] => none
  | r :: rs =>
      some { merch_lat := ratMean ((r :: rs).map Row.merch_lat)
             merch_long := ratMean ((r :: rs).map Row.merch_long) }

/-- Python's `int()` applied to a rational: truncation toward zero
(used for `int(city_info["zip"])` and `int(city_pop)`). -/
def truncInt (q : ℚ) : ℤ := if 0 ≤ q then ⌊q⌋ else ⌈q⌉

/-- The city attributes the predict route resolves for a transaction:
coordinates, state, zip code (already converted by `int()`), population. -/
structure ResolvedCity where
  lat : ℚ
  lon : ℚ
  state : String
  zipcode : ℤ
  city_pop : ℚ
deriving Repr, DecidableEq

/-- The fixed fallback used when the transaction's city is not in the lookup
table: `lat, lon, state, zipcode, city_pop = 39.8283, -98.5795, "KS", 66101, 50000`. -/
def fallbackCity : ResolvedCity :=
  { lat := 39.8283, lon := -98.5795, state := "KS", zipcode := 66101, city_pop := 50000 }

/-- City resolution step of `predict`: `city_lookup.get(txn.city)`, fallback
constants on a miss, otherwise the entry's fields with `zip` truncated by `int()`. -/
def resolveCity (lookup : String → Option CityInfo) (city : String) : ResolvedCity :=
  match lookup city with
  | none => fallbackCity
  | some info =>
      { lat := info.lat, lon := info.long, state := info.state,
        zipcode := truncInt info.zip, city_pop := info.city_pop }

/-- Merchant resolution step of `predict`: `merchant_lookup.get(txn.merchant)`;
on a miss the resolved city's coordinates shifted by `+0.01` each, otherwise
the entry's mean coordinates. -/
def resolveMerchant (lookup : String → Option MerchInfo) (merchant : String)
    (c : ResolvedCity) : ℚ × ℚ :=
  match lookup merchant with
  | none => (c.lat + 1/100, c.lon + 1/100)
  | some info => (info.merch_lat, info.merch_long)

/-- A validated transaction request (pydantic `TransactionRequest`). -/
structure TransactionRequest where
  amount : ℚ
  merchant : String
  category : String
  city : String
deriving Repr, DecidableEq

/-- An inbound request body before validation: each of the four declared
fields may be missing. -/
structure RawRequest where
  amount : Option ℚ
  merchant : Option String
  category : Option String
  city : Option String
deriving Repr, DecidableEq

/-- A pydantic validation failure (HTTP 422). -/
inductive ValidationError where
  | missingField (name : String)
  | notGreaterThanZero
deriving Repr, DecidableEq

/-- Pydantic validation of `TransactionRequest`: every declared field must be
present, and `amount` carries `Field(..., gt=0)`.  No other constraint exists:
in particular no string field has a minimum length. -/
def validate (raw : RawRequest) : Except ValidationError TransactionRequest :=
  match raw.amount with
  | none => .error (.missingField "amount")
  | some a =>
      if 0 < a then
        match raw.merchant with
        | none => .error (.missingField "merchant")
        | some m =>
            match raw.category with
            | none => .error (.missingField "category")
            | some cat =>
                match raw.city with
                | none => .error (.missingField "city")
                | some ci => .ok { amount := a, merchant := m, category := cat, city := ci }
      else .error .notGreaterThanZero

/-- The response body of `POST /predict` (pydantic `PredictionResponse`). -/
structure PredictionResponse where
  risk_score : ℤ
  probability : ℚ
  risk_level : String
  decision : String
deriving Repr, DecidableEq

/-- The response body of `GET /health`. -/
structure HealthResponse where
  status : String
  model_loaded : Bool
deriving Repr, DecidableEq

/-- Wall-clock–derived values read from `datetime.now()` at request time. -/
structure Now where
  hour : ℤ
  day : ℤ
  month : ℤ
  weekday : ℤ
deriving Repr, DecidableEq

/-- The flag `is_weekend = 1 if weekday >= 5 else 0`. -/
def isWeekend (now : Now) : ℤ := if 5 ≤ now.weekday then 1 else 0

/-- A value of the feature dictionary: Python strings, ints and floats;
`distance` is the one real-valued (transcendental) entry. -/
inductive FeatValue where
  | str (s : String)
  | int (z : ℤ)
  | num (q : ℚ)
  | real (x : ℝ)

/-- The loaded classifier, abstracted to what `predict` uses of it:
`predict_proba(df)[0][1]`, the fraud probability for one feature row. -/
def Classifier : Type := List (String × FeatValue) → ℚ

/-- The process-wide state populated at startup: the (possibly not yet
loaded) model and the two lookup tables. -/
structure ServerState where
  model : Option Classifier
  cityLookup : String → Option CityInfo
  merchantLookup : String → Option MerchInfo

/-- The route `GET /health`: status "ok" and whether the model is loaded. -/
def health (st : ServerState) : HealthResponse :=
  { status := "ok", model_loaded := st.model.isSome }

/-- Python's `round` to the nearest integer: round half to even. -/
def pyRound (q : ℚ) : ℤ :=
  if q - ⌊q⌋ < 1/2 then ⌊q⌋
  else if 1/2 < q - ⌊q⌋ then ⌊q⌋ + 1
  else if Even ⌊q⌋ then ⌊q⌋ else ⌊q⌋ + 1

/-- Python `round(x, 4)`: round to four decimal places. -/
def roundTo4 (q : ℚ) : ℚ := (pyRound (q * 10000) : ℚ) / 10000

/-- The score `risk_score = int(round(proba * 100))`. -/
def riskScore (proba : ℚ) : ℤ := pyRound (proba * 100)

/-- The risk-bucketing tail of `predict`: `risk_score >= 70` gives
`("High", "Block")`, else `risk_score >= 40` gives `("Medium", "Require OTP")`,
else `("Low", "Approve")`; returns `(risk_level, decision)`. -/
def riskBucket (risk_score : ℤ) : String × String :=
  if 70 ≤ risk_score then ("High", "Block")
  else if 40 ≤ risk_score then ("Medium", "Require OTP")
  else ("Low", "Approve")

/-- Degrees to radians (`math.radians`). -/
noncomputable def radians (x : ℝ) : ℝ := x * Real.pi / 180

/-- Python `math.atan2(y, x)` over the reals (signed zeros do not exist in `ℝ`). -/
noncomputable def atan2 (y x : ℝ) : ℝ :=
  if 0 < x then Real.arctan (y / x)
  else if x = 0 then
    if 0 < y then Real.pi / 2
    else if y < 0 then -(Real.pi / 2)
    else 0
  else
    if 0 ≤ y then Real.arctan (y / x) + Real.pi
    else Real.arctan (y / x) - Real.pi

/-- The intermediate `a` of `haversine`:
`sin(dlat/2)**2 + cos(lat1)*cos(lat2)*sin(dlon/2)**2` after converting the
four inputs to radians. -/
noncomputable def haversineA (lat1 lon1 lat2 lon2 : ℝ) : ℝ :=
  Real.sin ((radians lat2 - radians lat1) / 2) ^ 2 +
    Real.cos (radians lat1) * Real.cos (radians lat2) *
      Real.sin ((radians lon2 - radians lon1) / 2) ^ 2

/-- The helper `haversine(lat1, lon1, lat2, lon2)`: distance in km, Earth radius 6371.0,
`c = 2 * atan2(sqrt(a), sqrt(1 - a))`, result `R * c`. -/
noncomputable def haversine (lat1 lon1 lat2 lon2 : ℝ) : ℝ :=
  6371.0 * (2 * atan2 (Real.sqrt (haversineA lat1 lon1 lat2 lon2))
    (Real.sqrt (1 - haversineA lat1 lon1 lat2 lon2)))

/-- The feature dictionary built by `predict`, in the exact key order of the
source's `feature_dict` literal. -/
noncomputable def featureVec (txn : TransactionRequest) (c : ResolvedCity)
    (merch : ℚ × ℚ) (now : Now) : List (String × FeatValue) :=
  [ ("merchant", .str txn.merchant)
  , ("category", .str txn.category)
  , ("amt", .num txn.amount)
  , ("gender", .str "M")
  , ("city", .str txn.city)
  , ("state", .str c.state)
  , ("zip", .int c.zipcode)
  , ("lat", .num c.lat)
  , ("long", .num c.lon)
  , ("city_pop", .int (truncInt c.city_pop))
  , ("job", .str "Software Engineer")
  , ("merch_lat", .num merch.1)
  , ("merch_long", .num merch.2)
  , ("hour", .int now.hour)
  , ("day", .int now.day)
  , ("month", .int now.month)
  , ("weekday", .int now.weekday)
  , ("is_weekend", .int (isWeekend now))
  , ("age", .int 35)
  , ("distance", .real (haversine c.lat c.lon merch.1 merch.2)) ]

/-- An error surfaced by `POST /predict`: a pydantic validation failure (422)
or the `HTTPException(503, "Model not loaded yet")` guard. -/
inductive PredictError where
  | validation (e : ValidationError)
  | unavailable (detail : String)

/-- Body of the `predict` route after validation: the 503 guard, city and
merchant resolution, feature assembly, classifier call, risk scoring. -/
noncomputable def predictValidated (st : ServerState) (now : Now)
    (txn : TransactionRequest) : Except PredictError PredictionResponse :=
  match st.model with
  | none => .error (.unavailable "Model not loaded yet")
  | some m =>
      let c := resolveCity st.cityLookup txn.city
      let merch := resolveMerchant st.merchantLookup txn.merchant c
      let proba := m (featureVec txn c merch now)
      let rs := riskScore proba
      .ok { risk_score := rs
            probability := roundTo4 proba
            risk_level := (riskBucket rs).1
            decision := (riskBucket rs).2 }

/-- The route `POST /predict` end to end: pydantic validation of the body happens
before the handler body runs. -/
noncomputable def handlePredict (raw : RawRequest) (st : ServerState)
    (now : Now) : Except PredictError PredictionResponse :=
  match validate raw with
  | .error e => .error (.validation e)
  | .ok txn => predictValidated st now txn

/-- The position-independent probability extracted by `predict` for a request:
the classifier applied to the assembled feature vector of that request. -/
noncomputable def requestProba (st : ServerState) (m : Classifier) (now : Now)
    (txn : TransactionRequest) : ℚ :=
  m (featureVec txn (resolveCity st.cityLookup txn.city)
      (resolveMerchant st.merchantLookup txn.merchant (resolveCity st.cityLookup txn.city)) now)

/-- A sample dataset row (concrete values used for evaluation). -/
def sampleRow : Row :=
  { merchant := "fraud_Rippin and Sons", category := "misc_net", city := "Columbia",
    state := "SC", zip := 29209, lat := 34, long := -81, city_pop := 333497,
    merch_lat := 35, merch_long := -82 }

/-- A second sample dataset row with the same city and merchant key. -/
def sampleRow2 : Row :=
  { merchant := "fraud_Rippin and Sons", category := "grocery_pos", city := "Columbia",
    state := "SC", zip := 29210, lat := 33, long := -80, city_pop := 333000,
    merch_lat := 34, merch_long := -81 }

/-- A two-row sample reference dataset. -/
def sampleDS : List Row := [sampleRow, sampleRow2]

/-- A classifier that reports a constant fraud probability. -/
def constClassifier (p : ℚ) : Classifier := fun _ => p

/-- Server state before startup has loaded the model. -/
def stNoModel : ServerState :=
  { model := none, cityLookup := fun _ => none, merchantLookup := fun _ => none }

/-- Server state after startup, with a constant-probability classifier and the
lookup tables built from the sample dataset. -/
def stLoaded (p : ℚ) : ServerState :=
  { model := some (constClassifier p), cityLookup := buildCityLookup sampleDS,
    merchantLookup := buildMerchantLookup sampleDS }

/-- A sample wall-clock instant (a Saturday). -/
def nowSample : Now := { hour := 13, day := 7, month := 6, weekday := 5 }

/-- A sample validated transaction request. -/
def txnSample : TransactionRequest :=
  { amount := 25, merchant := "fraud_Rippin and Sons", category := "misc_net",
    city := "Columbia" }

/-- The sample transaction as a raw (pre-validation) request body. -/
def rawSample : RawRequest :=
  { amount := some 25, merchant := some "fraud_Rippin and Sons",
    category := some "misc_net", city := some "Columbia" }

/-- A raw request with a negative amount and all fields present. -/
def rawNegAmount : RawRequest :=
  { amount := some (-3), merchant := some "a", category := some "b", city := some "c" }

/-- A raw request with a positive amount and all fields present. -/
def rawPosAmount : RawRequest :=
  { amount := some 25, merchant := some "a", category := some "b", city := some "c" }

/-- A raw request whose three string fields are all empty. -/
def rawEmptyStrings : RawRequest :=
  { amount := some 5, merchant := some "", category := some "", city := some "" }

/-! ## Helper lemmas -/

/-- On a loaded model, `predict` returns exactly the risk score, the
4-decimal-rounded probability and the bucket computed from the classifier
probability of the assembled feature vector. -/
theorem predictValidated_some (st : ServerState) (m : Classifier) (now : Now)
    (txn : TransactionRequest) (hm : st.model = some m) :
    predictValidated st now txn =
      .ok { risk_score := riskScore (requestProba st m now txn)
            probability := roundTo4 (requestProba st m now txn)
            risk_level := (riskBucket (riskScore (requestProba st m now txn))).1
            decision := (riskBucket (riskScore (requestProba st m now txn))).2 } := by
  simp only [predictValidated, hm, requestProba]

/-- The function `pyRound` returns either the floor or the floor plus one. -/
theorem pyRound_bounds (q : ℚ) : ⌊q⌋ ≤ pyRound q ∧ pyRound q ≤ ⌊q⌋ + 1 := by
  unfold pyRound
  split_ifs <;> omega

/-- The function `pyRound` never exceeds an integer upper bound of its argument. -/
theorem pyRound_le_of_le (q : ℚ) (n : ℤ) (h : q ≤ (n : ℚ)) : pyRound q ≤ n := by
  have hfl : (⌊q⌋ : ℚ) ≤ q := Int.floor_le q
  have hf : ⌊q⌋ ≤ n := by
    have : (⌊q⌋ : ℚ) ≤ (n : ℚ) := le_trans hfl h
    exact_mod_cast this
  unfold pyRound
  split_ifs with h1 h2 h3
  · exact hf
  · have hlt : (⌊q⌋ : ℚ) + 1/2 < (n : ℚ) := by linarith
    have : (⌊q⌋ : ℚ) < (n : ℚ) := by linarith
    have : ⌊q⌋ < n := by exact_mod_cast this
    omega
  · exact hf
  · have heq : q - ⌊q⌋ = 1/2 := le_antisymm (not_lt.mp h2) (not_lt.mp h1)
    have : (⌊q⌋ : ℚ) + 1/2 ≤ (n : ℚ) := by linarith
    have : (⌊q⌋ : ℚ) < (n : ℚ) := by linarith
    have : ⌊q⌋ < n := by exact_mod_cast this
    omega

/-- The function `pyRound` of a nonnegative rational is nonnegative. -/
theorem pyRound_nonneg (q : ℚ) (h : 0 ≤ q) : 0 ≤ pyRound q := by
  have := (pyRound_bounds q).1
  have : 0 ≤ ⌊q⌋ := Int.floor_nonneg.mpr h
  omega

/-- Half-angle identity for the square of the sine. -/
theorem sin_half_sq (x : ℝ) : Real.sin (x / 2) ^ 2 = (1 - Real.cos x) / 2 := by
  have h1 : Real.cos (2 * (x / 2)) = Real.cos (x / 2) ^ 2 - Real.sin (x / 2) ^ 2 :=
    Real.cos_two_mul' _
  have h2 : Real.sin (x / 2) ^ 2 + Real.cos (x / 2) ^ 2 = 1 := Real.sin_sq_add_cos_sq _
  have h3 : 2 * (x / 2) = x := by ring
  rw [h3] at h1
  linarith

/-- The spherical-law-of-cosines combination is bounded by one in absolute
value, for arbitrary real angles. -/
theorem cos_combination_abs_le (x y e : ℝ) :
    |Real.sin x * Real.sin y + Real.cos x * Real.cos y * Real.cos e| ≤ 1 := by
  have h1 : |Real.sin x * Real.sin y + Real.cos x * Real.cos y * Real.cos e|
      ≤ |Real.sin x * Real.sin y| + |Real.cos x * Real.cos y * Real.cos e| := abs_add _ _
  have h2 : |Real.sin x * Real.sin y| = |Real.sin x| * |Real.sin y| := abs_mul _ _
  have h3 : |Real.cos x * Real.cos y * Real.cos e| ≤ |Real.cos x| * |Real.cos y| := by
    rw [abs_mul, abs_mul]
    exact mul_le_of_le_one_right (by positivity) (Real.abs_cos_le_one e)
  have h4 : |Real.sin x| * |Real.sin y| + |Real.cos x| * |Real.cos y| ≤ 1 := by
    nlinarith [sq_nonneg (|Real.sin x| - |Real.sin y|), sq_nonneg (|Real.cos x| - |Real.cos y|),
      Real.sin_sq_add_cos_sq x, Real.sin_sq_add_cos_sq y,
      sq_abs (Real.sin x), sq_abs (Real.sin y), sq_abs (Real.cos x), sq_abs (Real.cos y)]
  linarith

/-- Closed form of the haversine intermediate value. -/
theorem haversineA_closed (lat1 lon1 lat2 lon2 : ℝ) :
    haversineA lat1 lon1 lat2 lon2 =
      (1 - (Real.sin (radians lat1) * Real.sin (radians lat2) +
        Real.cos (radians lat1) * Real.cos (radians lat2) *
          Real.cos (radians lon2 - radians lon1))) / 2 := by
  unfold haversineA
  rw [sin_half_sq, sin_half_sq, Real.cos_sub]
  ring

/-- The haversine intermediate value lies in the unit interval for all real
inputs, so both square-root arguments are nonnegative. -/
theorem haversineA_mem_unit (lat1 lon1 lat2 lon2 : ℝ) :
    0 ≤ haversineA lat1 lon1 lat2 lon2 ∧ haversineA lat1 lon1 lat2 lon2 ≤ 1 := by
  rw [haversineA_closed]
  have h := cos_combination_abs_le (radians lat1) (radians lat2) (radians lon2 - radians lon1)
  rw [abs_le] at h
  constructor <;> linarith [h.1, h.2]

/-- Swapping the two coordinate pairs leaves the haversine intermediate
value unchanged. -/
theorem haversineA_swap (lat1 lon1 lat2 lon2 : ℝ) :
    haversineA lat2 lon2 lat1 lon1 = haversineA lat1 lon1 lat2 lon2 := by
  unfold haversineA
  have h1 : (radians lat1 - radians lat2) / 2 = -((radians lat2 - radians lat1) / 2) := by
    ring
  have h2 : (radians lon1 - radians lon2) / 2 = -((radians lon2 - radians lon1) / 2) := by
    ring
  rw [h1, h2, Real.sin_neg, Real.sin_neg]
  ring

/-- For `a` in the unit interval, `atan2 (sqrt a) (sqrt (1 - a))` lies in
`[0, pi/2]`. -/
theorem atan2_sqrt_mem (a : ℝ) (h0 : 0 ≤ a) (h1 : a ≤ 1) :
    0 ≤ atan2 (Real.sqrt a) (Real.sqrt (1 - a)) ∧
      atan2 (Real.sqrt a) (Real.sqrt (1 - a)) ≤ Real.pi / 2 := by
  rcases lt_or_eq_of_le h1 with h | h
  · have hx : 0 < Real.sqrt (1 - a) := Real.sqrt_pos.mpr (by linarith)
    rw [atan2, if_pos hx]
    constructor
    · have harg : 0 ≤ Real.sqrt a / Real.sqrt (1 - a) :=
        div_nonneg (Real.sqrt_nonneg a) hx.le
      calc (0 : ℝ) = Real.arctan 0 := (Real.arctan_zero).symm
        _ ≤ Real.arctan (Real.sqrt a / Real.sqrt (1 - a)) :=
            Real.arctan_strictMono.monotone harg
    · exact (Real.arctan_lt_pi_div_two _).le
  · subst h
    rw [show (1 : ℝ) - 1 = 0 by norm_num, Real.sqrt_zero, Real.sqrt_one, atan2]
    rw [if_neg (lt_irrefl 0), if_pos rfl, if_pos one_pos]
    exact ⟨by positivity, le_refl _⟩

/-! ## Claims -/

/-- Claim C1: the (risk_level, decision) pair is a pure function of the
integer risk score; scores 0-39 give ("Low", "Approve"), 40-69 give
("Medium", "Require OTP"), 70-100 give ("High", "Block"), and the boundary
values 39, 40, 69, 70 land in Low, Medium, Medium, High respectively. -/
theorem c1_risk_bucketing (s : ℤ) :
    (0 ≤ s → s ≤ 39 → riskBucket s = ("Low", "Approve")) ∧
    (40 ≤ s → s ≤ 69 → riskBucket s = ("Medium", "Require OTP")) ∧
    (70 ≤ s → s ≤ 100 → riskBucket s = ("High", "Block")) ∧
    riskBucket 39 = ("Low", "Approve") ∧
    riskBucket 40 = ("Medium", "Require OTP") ∧
    riskBucket 69 = ("Medium", "Require OTP") ∧
    riskBucket 70 = ("High", "Block") := by
  refine ⟨?_, ?_, ?_, by decide, by decide, by decide, by decide⟩ <;>
    · intro h1 h2
      simp only [riskBucket]
      split_ifs <;> first | rfl | omega

/-- Witness for C1 at the concrete score 50. -/
theorem c1_risk_bucketing_witness :
    (40 : ℤ) ≤ 50 ∧ (50 : ℤ) ≤ 69 ∧ riskBucket 50 = ("Medium", "Require OTP") :=
  ⟨by decide, by decide, (c1_risk_bucketing 50).2.1 (by decide) (by decide)⟩

/-- Counterexample to claim C2 as stated: a payload whose three string fields
are all the empty string (amount 5 > 0, all fields present) is accepted by
validation, not rejected — `TransactionRequest` puts no minimum length on
`merchant`, `category` or `city`. -/
theorem c2_empty_strings_counterexample :
    validate rawEmptyStrings =
      .ok { amount := 5, merchant := "", category := "", city := "" } := by
  rfl

/-- Claim C2 amended: the three string fields are required to be present (a
missing one fails validation), but they are not required to be non-empty —
a payload with empty strings and positive amount passes validation and
proceeds to prediction. -/
theorem c2_string_fields_amended (a : ℚ) (m c ci : String) (ha : 0 < a) :
    validate { amount := some a, merchant := some m, category := some c, city := some ci } =
      .ok { amount := a, merchant := m, category := c, city := ci } ∧
    validate { amount := some a, merchant := none, category := some c, city := some ci } =
      .error (.missingField "merchant") ∧
    validate { amount := some a, merchant := some m, category := none, city := some ci } =
      .error (.missingField "category") ∧
    validate { amount := some a, merchant := some m, category := some c, city := none } =
      .error (.missingField "city") := by
  refine ⟨?_, ?_, ?_, ?_⟩ <;> simp [validate, ha]

/-- Witness for the amended C2: empty strings with amount 5 are accepted. -/
theorem c2_string_fields_amended_witness :
    (0 : ℚ) < 5 ∧
    validate { amount := some 5, merchant := some "", category := some "", city := some "" } =
      .ok { amount := 5, merchant := "", category := "", city := "" } :=
  ⟨by norm_num, (c2_string_fields_amended 5 "" "" "" (by norm_num)).1⟩

/-- Claim C3: a request with amount ≤ 0 is rejected with a validation error
before the model guard or any lookup runs — the result is the same for every
server state, so the classifier is never invoked — while any amount > 0
passes validation (when the other fields are present). -/
theorem c3_amount_validation (st : ServerState) (now : Now) (a : ℚ)
    (m c ci : Option String) :
    (a ≤ 0 →
      handlePredict { amount := some a, merchant := m, category := c, city := ci } st now =
        .error (.validation .notGreaterThanZero)) ∧
    (∀ m2 c2 ci2 : String, 0 < a →
      validate { amount := some a, merchant := some m2, category := some c2, city := some ci2 } =
        .ok { amount := a, merchant := m2, category := c2, city := ci2 }) := by
  constructor
  · intro ha
    simp [handlePredict, validate, not_lt.mpr ha]
  · intro m2 c2 ci2 ha
    simp [validate, ha]

/-- Witness for C3 at amount -3 (with the unloaded state, and a positive
amount 25 for the second half). -/
theorem c3_amount_validation_witness :
    ((-3 : ℚ) ≤ 0 ∧
      handlePredict rawNegAmount stNoModel nowSample =
        .error (.validation .notGreaterThanZero)) ∧
    ((0 : ℚ) < 25 ∧
      validate rawPosAmount =
        .ok { amount := 25, merchant := "a", category := "b", city := "c" }) :=
  ⟨⟨by norm_num,
      (c3_amount_validation stNoModel nowSample (-3) (some "a") (some "b") (some "c")).1
        (by norm_num)⟩,
    ⟨by norm_num,
      (c3_amount_validation stNoModel nowSample 25 (some "a") (some "b") (some "c")).2
        "a" "b" "c" (by norm_num)⟩⟩

/-- Claim C4: on a loaded model, `predict` passes the classifier exactly the
assembled feature vector, and that vector has exactly 20 named fields in
exactly the fixed order (the code-level keys `amt`, `lat`, `long`,
`city_pop`, `merch_lat`, `merch_long` are the spec fields amount, latitude,
longitude, city_population, merchant_latitude, merchant_longitude). -/
theorem c4_feature_vector_shape (st : ServerState) (m : Classifier) (now : Now)
    (txn : TransactionRequest) (hm : st.model = some m) :
    predictValidated st now txn =
      .ok { risk_score := riskScore (requestProba st m now txn)
            probability := roundTo4 (requestProba st m now txn)
            risk_level := (riskBucket (riskScore (requestProba st m now txn))).1
            decision := (riskBucket (riskScore (requestProba st m now txn))).2 } ∧
    (∀ (txn2 : TransactionRequest) (c : ResolvedCity) (merch : ℚ × ℚ) (now2 : Now),
      (featureVec txn2 c merch now2).map Prod.fst =
        ["merchant", "category", "amt", "gender", "city", "state", "zip", "lat", "long",
         "city_pop", "job", "merch_lat", "merch_long", "hour", "day", "month",
         "weekday", "is_weekend", "age", "distance"] ∧
      (featureVec txn2 c merch now2).length = 20) :=
  ⟨predictValidated_some st m now txn hm, fun _ _ _ _ => ⟨rfl, rfl⟩⟩

/-- Witness for C4 with a loaded constant classifier. -/
theorem c4_feature_vector_shape_witness :
    (stLoaded (6951/10000)).model = some (constClassifier (6951/10000)) ∧
    ((featureVec txnSample fallbackCity (40, -99) nowSample).map Prod.fst =
        ["merchant", "category", "amt", "gender", "city", "state", "zip", "lat", "long",
         "city_pop", "job", "merch_lat", "merch_long", "hour", "day", "month",
         "weekday", "is_weekend", "age", "distance"] ∧
      (featureVec txnSample fallbackCity (40, -99) nowSample).length = 20) :=
  ⟨rfl,
    (c4_feature_vector_shape (stLoaded (6951/10000)) (constClassifier (6951/10000))
        nowSample txnSample rfl).2 txnSample fallbackCity (40, -99) nowSample⟩

/-- Claim C5: a city absent from the lookup table resolves to the exact
fallback values (39.8283, -98.5795, "KS", 66101, 50000); a present city
resolves to the mean latitude/longitude and the first-observed state, zip
(truncated to an integer) and population of its dataset rows. -/
theorem c5_city_resolution (ds : List Row) (city : String) :
    (ds.filter (fun row => row.city = city) = [] →
      resolveCity (buildCityLookup ds) city = fallbackCity ∧
      fallbackCity = { lat := 39.8283, lon := -98.5795, state := "KS",
                       zipcode := 66101, city_pop := 50000 }) ∧
    (∀ r rs, ds.filter (fun row => row.city = city) = r :: rs →
      resolveCity (buildCityLookup ds) city =
        { lat := ratMean ((r :: rs).map Row.lat), lon := ratMean ((r :: rs).map Row.long),
          state := r.state, zipcode := truncInt r.zip, city_pop := r.city_pop }) := by
  constructor
  · intro h
    have hb : buildCityLookup ds city = none := by
      unfold buildCityLookup
      rw [h]
    exact ⟨by simp [resolveCity, hb], rfl⟩
  · intro r rs h
    have hb : buildCityLookup ds city =
        some { lat := ratMean ((r :: rs).map Row.lat), long := ratMean ((r :: rs).map Row.long),
               state := r.state, zip := r.zip, city_pop := r.city_pop } := by
      unfold buildCityLookup
      rw [h]
    simp [resolveCity, hb]

/-- Witness for C5: the sample dataset misses "Nowhere" and contains
"Columbia" twice. -/
theorem c5_city_resolution_witness :
    (sampleDS.filter (fun row => row.city = "Nowhere") = [] ∧
      resolveCity (buildCityLookup sampleDS) "Nowhere" = fallbackCity) ∧
    (sampleDS.filter (fun row => row.city = "Columbia") = sampleRow :: [sampleRow2] ∧
      resolveCity (buildCityLookup sampleDS) "Columbia" =
        { lat := ratMean ((sampleRow :: [sampleRow2]).map Row.lat),
          lon := ratMean ((sampleRow :: [sampleRow2]).map Row.long),
          state := sampleRow.state, zipcode := truncInt sampleRow.zip,
          city_pop := sampleRow.city_pop }) :=
  ⟨⟨by decide, ((c5_city_resolution sampleDS "Nowhere").1 (by decide)).1⟩,
    ⟨by decide, (c5_city_resolution sampleDS "Columbia").2 sampleRow [sampleRow2] (by decide)⟩⟩

/-- Claim C6: a merchant absent from the lookup table resolves to the
resolved city coordinates (lookup hit or fallback) each shifted by +0.01; a
present merchant resolves to the mean of its dataset rows' coordinates. -/
theorem c6_merchant_resolution (ds : List Row) (clookup : String → Option CityInfo)
    (city merchant : String) :
    (ds.filter (fun row => row.merchant = merchant) = [] →
      resolveMerchant (buildMerchantLookup ds) merchant (resolveCity clookup city) =
        ((resolveCity clookup city).lat + 1/100, (resolveCity clookup city).lon + 1/100)) ∧
    (∀ r rs, ds.filter (fun row => row.merchant = merchant) = r :: rs →
      resolveMerchant (buildMerchantLookup ds) merchant (resolveCity clookup city) =
        (ratMean ((r :: rs).map Row.merch_lat), ratMean ((r :: rs).map Row.merch_long))) := by
  constructor
  · intro h
    have hb : buildMerchantLookup ds merchant = none := by
      unfold buildMerchantLookup
      rw [h]
    simp [resolveMerchant, hb]
  · intro r rs h
    have hb : buildMerchantLookup ds merchant =
        some { merch_lat := ratMean ((r :: rs).map Row.merch_lat),
               merch_long := ratMean ((r :: rs).map Row.merch_long) } := by
      unfold buildMerchantLookup
      rw [h]
    simp [resolveMerchant, hb]

/-- Witness for C6: an unknown merchant against the fallback city, and the
known sample merchant. -/
theorem c6_merchant_resolution_witness :
    (sampleDS.filter (fun row => row.merchant = "Unknown LLC") = [] ∧
      resolveMerchant (buildMerchantLookup sampleDS) "Unknown LLC"
          (resolveCity (fun _ => none) "Nowhere") =
        ((resolveCity (fun _ => none) "Nowhere").lat + 1/100,
         (resolveCity (fun _ => none) "Nowhere").lon + 1/100)) ∧
    (sampleDS.filter (fun row => row.merchant = "fraud_Rippin and Sons") =
        sampleRow :: [sampleRow2] ∧
      resolveMerchant (buildMerchantLookup sampleDS) "fraud_Rippin and Sons"
          (resolveCity (fun _ => none) "Nowhere") =
        (ratMean ((sampleRow :: [sampleRow2]).map Row.merch_lat),
         ratMean ((sampleRow :: [sampleRow2]).map Row.merch_long))) :=
  ⟨⟨by decide, (c6_merchant_resolution sampleDS (fun _ => none) "Nowhere" "Unknown LLC").1
      (by decide)⟩,
    ⟨by decide, (c6_merchant_resolution sampleDS (fun _ => none) "Nowhere"
      "fraud_Rippin and Sons").2 sampleRow [sampleRow2] (by decide)⟩⟩

/-- Claim C7: `risk_score = round(probability * 100)` (Python rounding) is an
integer in 0..100 for probabilities in the unit interval; the threshold
comparison is made on that integer score while the returned probability is
rounded to 4 decimal places; and a probability of 0.6951 gives score 70 and
bucket ("High", "Block"). -/
theorem c7_risk_scoring (p : ℚ) (st : ServerState) (m : Classifier) (now : Now)
    (txn : TransactionRequest) :
    (0 ≤ p → p ≤ 1 → 0 ≤ riskScore p ∧ riskScore p ≤ 100) ∧
    (st.model = some m →
      predictValidated st now txn =
        .ok { risk_score := riskScore (requestProba st m now txn)
              probability := roundTo4 (requestProba st m now txn)
              risk_level := (riskBucket (riskScore (requestProba st m now txn))).1
              decision := (riskBucket (riskScore (requestProba st m now txn))).2 }) ∧
    riskScore (6951/10000) = 70 ∧
    riskBucket (riskScore (6951/10000)) = ("High", "Block") := by
  refine ⟨?_, predictValidated_some st m now txn, by norm_num [riskScore, pyRound],
    by norm_num [riskScore, pyRound, riskBucket]⟩
  intro h0 h1
  unfold riskScore
  constructor
  · exact pyRound_nonneg _ (by nlinarith)
  · exact pyRound_le_of_le _ 100 (by push_cast; nlinarith)

/-- Witness for C7 at the probability 0.6951 with a loaded constant
classifier. -/
theorem c7_risk_scoring_witness :
    (0 : ℚ) ≤ 6951/10000 ∧ (6951/10000 : ℚ) ≤ 1 ∧
    (0 ≤ riskScore (6951/10000) ∧ riskScore (6951/10000) ≤ 100) ∧
    (stLoaded (6951/10000)).model = some (constClassifier (6951/10000)) ∧
    predictValidated (stLoaded (6951/10000)) nowSample txnSample =
      .ok { risk_score := riskScore (6951/10000)
            probability := roundTo4 (6951/10000)
            risk_level := (riskBucket (riskScore (6951/10000))).1
            decision := (riskBucket (riskScore (6951/10000))).2 } :=
  ⟨by norm_num, by norm_num,
    (c7_risk_scoring (6951/10000) (stLoaded (6951/10000)) (constClassifier (6951/10000))
        nowSample txnSample).1 (by norm_num) (by norm_num),
    rfl,
    (c7_risk_scoring (6951/10000) (stLoaded (6951/10000)) (constClassifier (6951/10000))
        nowSample txnSample).2.1 rfl⟩

/-- Claim C8: a validated predict request on an unloaded model yields the
503-style error with detail "Model not loaded yet"; `health` always reports
status "ok" with `model_loaded` false exactly when the model is unset and
true exactly when it is loaded. -/
theorem c8_unavailable_and_health (st : ServerState) (raw : RawRequest)
    (txn : TransactionRequest) (now : Now) :
    (validate raw = .ok txn → st.model = none →
      handlePredict raw st now = .error (.unavailable "Model not loaded yet")) ∧
    (health st).status = "ok" ∧
    ((health st).model_loaded = false ↔ st.model = none) ∧
    ((health st).model_loaded = true ↔ ∃ mdl, st.model = some mdl) := by
  refine ⟨?_, rfl, ?_, ?_⟩
  · intro hv hm
    simp [handlePredict, hv, predictValidated, hm]
  · cases h : st.model <;> simp [health, h]
  · cases h : st.model <;> simp [health, h]

/-- Witness for C8: the sample request against the unloaded state. -/
theorem c8_unavailable_and_health_witness :
    validate rawSample = .ok txnSample ∧ stNoModel.model = none ∧
    handlePredict rawSample stNoModel nowSample =
      .error (.unavailable "Model not loaded yet") :=
  ⟨rfl, rfl,
    (c8_unavailable_and_health stNoModel rawSample txnSample nowSample).1 rfl rfl⟩

/-- Claim C9: the haversine distance from a point to itself is zero, and the
function is symmetric in its two coordinate pairs. -/
theorem c9_haversine_zero_and_symm (lat1 lon1 lat2 lon2 : ℝ) :
    haversine lat1 lon1 lat1 lon1 = 0 ∧
    haversine lat1 lon1 lat2 lon2 = haversine lat2 lon2 lat1 lon1 := by
  constructor
  · have hA : haversineA lat1 lon1 lat1 lon1 = 0 := by
      unfold haversineA
      simp
    unfold haversine
    rw [hA, Real.sqrt_zero, show (1 : ℝ) - 0 = 1 by ring, Real.sqrt_one]
    rw [atan2, if_pos one_pos, zero_div, Real.arctan_zero]
    ring
  · unfold haversine
    rw [haversineA_swap lat1 lon1 lat2 lon2]

/-- Claim C10: for arbitrary real inputs the haversine intermediate value is
in the unit interval (so both square-root arguments are nonnegative and the
function is total), and the returned distance lies in [0, pi * 6371] km. -/
theorem c10_haversine_bounds (lat1 lon1 lat2 lon2 : ℝ) :
    0 ≤ haversineA lat1 lon1 lat2 lon2 ∧ haversineA lat1 lon1 lat2 lon2 ≤ 1 ∧
    0 ≤ haversine lat1 lon1 lat2 lon2 ∧
    haversine lat1 lon1 lat2 lon2 ≤ Real.pi * 6371 := by
  obtain ⟨h0, h1⟩ := haversineA_mem_unit lat1 lon1 lat2 lon2
  obtain ⟨t0, t1⟩ := atan2_sqrt_mem _ h0 h1
  refine ⟨h0, h1, ?_, ?_⟩
  · unfold haversine
    have hR : (6371.0 : ℝ) = 6371 := by norm_num
    rw [hR]
    linarith
  · unfold haversine
    have hR : (6371.0 : ℝ) = 6371 := by norm_num
    rw [hR]
    linarith [Real.pi_pos]

end FraudAPI
